import Mathlib

/-!
Shallow embedding of the OMRChecker signal-to-decision core.

Numbers are modelled as exact rationals (`ℚ`); every comparison that the
source performs on a square root is embedded through its exact squared
equivalent (noted at the definition).

Embedded source files:
* `src/algorithm/template/threshold/strategies.py` (threshold strategies)
* `src/algorithm/template/detection/models/detection_results.py` (typed results)
* `src/processors/detection/bubbles_threshold/interpretation.py` (interpretation)
* `src/processors/detection/fusion/detection_fusion.py` (fusion engine)
* `src/processors/detection/shift_detection_processor.py` (shift validation)
* `src/utils/geometry.py` (vector magnitude)
* `src/processors/template/repositories/detection_repository.py` (repository)
-/

namespace OMRChecker

/-! ## Threshold strategies (`threshold/strategies.py`) -/

/-- Embeds dataclass `ThresholdResult` (the `metadata` dict, which no claim
touches, is omitted). -/
structure ThresholdResult where
  threshold_value : ℚ
  confidence : ℚ
  max_jump : ℚ
  method_used : String
  fallback_used : Bool
  deriving Repr, DecidableEq

/-- Embeds dataclass `ThresholdConfig` with its Python default values. -/
structure ThresholdConfig where
  min_jump : ℚ := 30
  jump_delta : ℚ := 20
  min_gap_two_bubbles : ℚ := 20
  min_jump_surplus_for_global_fallback : ℚ := 10
  confident_jump_surplus_for_disparity : ℚ := 15
  global_threshold_margin : ℚ := 10
  outlier_deviation_threshold : ℚ := 5
  default_threshold : ℚ := 255/2
  deriving Repr, DecidableEq

/-- Embeds Python `sorted(bubble_mean_values)` on a list of floats. -/
def sortValues (values : List ℚ) : List ℚ :=
  values.insertionSort (· ≤ ·)

/-- Look-around jump `sorted_values[i + 1] - sorted_values[i - 1]` read at
index `i` (indices produced by the scan loops below are always in bounds;
`getD` supplies an irrelevant default). -/
def jumpAt (s : List ℚ) (i : Nat) : ℚ :=
  s.getD (i + 1) 0 - s.getD (i - 1) 0

/-- Threshold placed at the argmax window:
`sorted_values[i - 1] + jump / 2`. -/
def midAt (s : List ℚ) (i : Nat) : ℚ :=
  s.getD (i - 1) 0 + jumpAt s i / 2

/-- Embeds the shared scan loop of both `GlobalThresholdStrategy` and
`LocalThresholdStrategy`: iterate over the index list, tracking
`(max_jump, threshold)` and updating both whenever `jump > max_jump`. -/
def maxJumpScan (s : List ℚ) (idxs : List Nat) (acc : ℚ × ℚ) : ℚ × ℚ :=
  idxs.foldl
    (fun acc i =>
      if acc.1 < jumpAt s i then (jumpAt s i, midAt s i) else acc)
    acc

/-- Index list of `for i in range(ls, total_bubbles_loose)` with
`looseness = 1`, `ls = 1`, `total_bubbles_loose = n - 1`: the indices
`1, ..., n - 2`. -/
def scanIndices (n : Nat) : List Nat :=
  List.range' 1 (n - 2)

namespace GlobalThresholdStrategy

/-- Embeds `GlobalThresholdStrategy.calculate_threshold`. -/
def calculate_threshold (bubble_mean_values : List ℚ) (config : ThresholdConfig) :
    ThresholdResult :=
  if bubble_mean_values.length < 2 then
    { threshold_value := config.default_threshold
      confidence := 0
      max_jump := 0
      method_used := "global_default"
      fallback_used := true }
  else
    let sorted_values := sortValues bubble_mean_values
    let scanned :=
      maxJumpScan sorted_values (scanIndices sorted_values.length)
        (config.min_jump, config.default_threshold)
    { threshold_value := scanned.2
      confidence := min 1 (scanned.1 / (config.min_jump * 3))
      max_jump := scanned.1
      method_used := "global_max_jump"
      fallback_used := decide (scanned.1 < config.min_jump) }

end GlobalThresholdStrategy

namespace LocalThresholdStrategy

/-- Embeds `self.global_fallback or config.default_threshold`: Python `or`
takes the default when `global_fallback` is `None` or falsy (`0.0`). -/
def fallback_threshold (global_fallback : Option ℚ) (config : ThresholdConfig) : ℚ :=
  match global_fallback with
  | none => config.default_threshold
  | some g => if g = 0 then config.default_threshold else g

/-- Embeds `LocalThresholdStrategy.calculate_threshold`. -/
def calculate_threshold (global_fallback : Option ℚ) (bubble_mean_values : List ℚ)
    (config : ThresholdConfig) : ThresholdResult :=
  let fb := fallback_threshold global_fallback config
  if bubble_mean_values.length < 2 then
    { threshold_value := fb
      confidence := 0
      max_jump := 0
      method_used := "local_single_bubble_fallback"
      fallback_used := true }
  else
    let sorted_values := sortValues bubble_mean_values
    if sorted_values.length = 2 then
      let gap := sorted_values.getD 1 0 - sorted_values.getD 0 0
      if gap < config.min_gap_two_bubbles then
        { threshold_value := fb
          confidence := 3/10
          max_jump := gap
          method_used := "local_two_bubbles_small_gap_fallback"
          fallback_used := true }
      else
        { threshold_value := (sorted_values.getD 0 0 + sorted_values.getD 1 0) / 2
          confidence := 7/10
          max_jump := gap
          method_used := "local_two_bubbles_mean"
          fallback_used := false }
    else
      let scanned :=
        maxJumpScan sorted_values (scanIndices sorted_values.length) (0, fb)
      let confident_jump :=
        config.min_jump + config.min_jump_surplus_for_global_fallback
      if scanned.1 < confident_jump then
        { threshold_value := fb
          confidence := 2/5
          max_jump := scanned.1
          method_used := "local_low_confidence_global_fallback"
          fallback_used := true }
      else
        { threshold_value := scanned.2
          confidence := min 1 (scanned.1 / (confident_jump * 2))
          max_jump := scanned.1
          method_used := "local_max_jump"
          fallback_used := false }

end LocalThresholdStrategy

/-- A threshold strategy, seen through the abstract contract
`calculate_threshold(values, config) -> ThresholdResult`. -/
def ThresholdStrategyFn : Type :=
  List ℚ → ThresholdConfig → ThresholdResult

/-- Embeds Python `max(xs)` on a nonempty list of floats (Python raises on
an empty list; callers below only reach it on nonempty lists, where the
head default is absorbed by the fold). -/
def pyMax (l : List ℚ) : ℚ :=
  l.foldl max (l.headD 0)

/-- Embeds Python `min(xs)` on a nonempty list of floats, dually to
`pyMax`. -/
def pyMin (l : List ℚ) : ℚ :=
  l.foldl min (l.headD 0)

namespace AdaptiveThresholdStrategy

/-- Embeds `AdaptiveThresholdStrategy.calculate_threshold` for a strategy
list and a weight list (the constructor enforces equal lengths; like the
Python `zip(..., strict=False)`, unmatched tails are dropped). -/
def calculate_threshold (strategies : List ThresholdStrategyFn) (weights : List ℚ)
    (bubble_mean_values : List ℚ) (config : ThresholdConfig) : ThresholdResult :=
  let results := strategies.map (fun s => s bubble_mean_values config)
  let pairs := results.zip weights
  let total_weight := (pairs.map (fun p => p.1.confidence * p.2)).sum
  if total_weight = 0 then
    { threshold_value := config.default_threshold
      confidence := 0
      max_jump := 0
      method_used := "adaptive_all_zero_confidence"
      fallback_used := true }
  else
    let weighted_threshold :=
      (pairs.map (fun p => p.1.threshold_value * p.1.confidence * p.2)).sum /
        total_weight
    { threshold_value := weighted_threshold
      confidence := pyMax (results.map ThresholdResult.confidence)
      max_jump := pyMax (results.map ThresholdResult.max_jump)
      method_used := "adaptive_weighted"
      fallback_used := results.any ThresholdResult.fallback_used }

end AdaptiveThresholdStrategy

/-! ## Typed detection results (`detection/models/detection_results.py`) -/

/-- Embeds enum `ScanQuality` (a `str` enum). -/
inductive ScanQuality where
  | EXCELLENT
  | GOOD
  | ACCEPTABLE
  | POOR
  deriving Repr, DecidableEq

/-- Embeds the `str` payload of each `ScanQuality` member. -/
def ScanQuality.value : ScanQuality → String
  | .EXCELLENT => "excellent"
  | .GOOD => "good"
  | .ACCEPTABLE => "acceptable"
  | .POOR => "poor"

/-- Embeds dataclass `BubbleMeanValue`; the `unit_bubble` reference is kept
only through its `bubble_value` label (the attribute the interpretation
reads), and `position` through its coordinates. -/
structure BubbleMeanValue where
  mean_value : ℚ
  bubble_value : String
  position : ℤ × ℤ := (0, 0)
  deriving Repr, DecidableEq

/-- Embeds dataclass `BubbleFieldDetectionResult` (the `timestamp` is
irrelevant to every claim and omitted). -/
structure BubbleFieldDetectionResult where
  field_id : String
  field_label : String
  bubble_means : List BubbleMeanValue
  deriving Repr, DecidableEq

namespace BubbleFieldDetectionResult

/-- Embeds property `mean_values`. -/
def mean_values (r : BubbleFieldDetectionResult) : List ℚ :=
  r.bubble_means.map BubbleMeanValue.mean_value

/-- Population variance of the bubble means, `np.std(values) ** 2`
(`np.std` uses `ddof = 0`); `0` for an empty list as in the source. -/
def mean_variance (r : BubbleFieldDetectionResult) : ℚ :=
  match r.mean_values with
  | [] => 0
  | values =>
      let n : ℚ := values.length
      let mu := values.sum / n
      (values.map (fun x => (x - mu) ^ 2)).sum / n

/-- Embeds property `scan_quality`: the source compares
`std_deviation = sqrt(variance)` against `50 / 30 / 15`; since all bounds
are nonnegative, `sqrt(v) > c` is embedded exactly as `v > c^2`. -/
def scan_quality (r : BubbleFieldDetectionResult) : ScanQuality :=
  if r.mean_variance > 2500 then .EXCELLENT
  else if r.mean_variance > 900 then .GOOD
  else if r.mean_variance > 225 then .ACCEPTABLE
  else .POOR

end BubbleFieldDetectionResult

/-! ## Bubble field interpretation
(`bubbles_threshold/interpretation.py`) -/

namespace BubblesFieldInterpretation

/-- Embeds `BubbleInterpretation.is_attempted`:
`bubble_mean.mean_value < threshold`. -/
def is_attempted (b : BubbleMeanValue) (threshold : ℚ) : Bool :=
  b.mean_value < threshold

/-- The `bubble_value`s of the attempted bubbles, in original order — the
`marked_bubbles` comprehension of `get_field_interpretation_string`. -/
def marked_bubbles (bubbles : List BubbleMeanValue) (threshold : ℚ) : List String :=
  (bubbles.filter (fun b => is_attempted b threshold)).map BubbleMeanValue.bubble_value

/-- Embeds `get_field_interpretation_string`: empty value when zero or all
bubbles are marked, otherwise the concatenation of the marked values. -/
def get_field_interpretation_string (bubbles : List BubbleMeanValue)
    (threshold : ℚ) (empty_value : String) : String :=
  let marked := marked_bubbles bubbles threshold
  if marked.length = 0 then empty_value
  else if marked.length = bubbles.length then empty_value
  else String.join marked

/-- Embeds `_check_multi_marking`: `is_multi_marked = marked_count > 1`. -/
def check_multi_marking (bubbles : List BubbleMeanValue) (threshold : ℚ) : Bool :=
  1 < (bubbles.filter (fun b => is_attempted b threshold)).length

/-- Embeds the `scan_quality_map` literal of
`_calculate_overall_confidence_score`, as the association list the dict
holds, queried with `.get(key, 0.5)`. -/
def scan_quality_map : List (String × ℚ) :=
  [("EXCELLENT", 1), ("GOOD", 9/10), ("MODERATE", 7/10), ("POOR", 1/2)]

/-- Embeds `scan_quality_map.get(detection_result.scan_quality.value, 0.5)`. -/
def scan_quality_factor (r : BubbleFieldDetectionResult) : ℚ :=
  match scan_quality_map.find? (fun p => p.1 = r.scan_quality.value) with
  | some p => p.2
  | none => 1/2

end BubblesFieldInterpretation

/-! ## Detection fusion (`fusion/detection_fusion.py`) -/

/-- Traditional field interpretation, seen through the two attributes the
fusion engine reads (`getattr` with defaults `0.0` and `[]`). -/
structure TraditionalInterpretation where
  overall_confidence_score : ℚ := 0
  matched_bubbles : List String := []
  deriving Repr, DecidableEq

/-- ML interpretation dict, seen through the two keys the fusion engine
reads (`.get` with defaults `0.0` and `[]`). -/
structure MLInterpretation where
  confidence : ℚ := 0
  detected_bubbles : List String := []
  deriving Repr, DecidableEq

/-- A fused value: either the traditional interpretation object or the
ML-derived dict returned by `_create_ml_interpretation`. -/
inductive FusedValue where
  | traditional (t : TraditionalInterpretation)
  | ml (m : MLInterpretation)
  deriving Repr, DecidableEq

/-- Discrepancy record appended by the fusion strategies (payload kept as
the responses and confidences the source stores). -/
structure Discrepancy where
  field_id : String
  traditional_response : List String
  ml_response : List String
  reason : String
  deriving Repr, DecidableEq

namespace DetectionFusion

/-- Embeds `_find_ml_interpretation`: the source always returns `None`
(explicit placeholder, "return None to use traditional detection"). -/
def find_ml_interpretation (_field_id : String)
    (_ml_blocks_response : List MLInterpretation) : Option MLInterpretation :=
  none

/-- Embeds `_responses_agree`: the source placeholder always returns
`True`. -/
def responses_agree (_trad_response _ml_response : List String) : Bool :=
  true

/-- Embeds `_create_ml_interpretation`: returns the ML dict unchanged. -/
def create_ml_interpretation (ml_interp : MLInterpretation) : FusedValue :=
  .ml ml_interp

/-- Embeds `_confidence_weighted_fusion`. -/
def confidence_weighted_fusion (field_id : String)
    (trad_interp : TraditionalInterpretation) (ml_interp : MLInterpretation)
    (confidence_threshold : ℚ) : FusedValue × Option Discrepancy :=
  let trad_confidence := trad_interp.overall_confidence_score
  let ml_confidence := ml_interp.confidence
  let trad_response := trad_interp.matched_bubbles
  let ml_response := ml_interp.detected_bubbles
  if trad_confidence > confidence_threshold ∧ ml_confidence > confidence_threshold then
    if responses_agree trad_response ml_response then
      (.traditional trad_interp, none)
    else
      let discrepancy : Discrepancy :=
        { field_id := field_id
          traditional_response := trad_response
          ml_response := ml_response
          reason := "high_confidence_disagreement" }
      if trad_confidence > ml_confidence then (.traditional trad_interp, some discrepancy)
      else (create_ml_interpretation ml_interp, some discrepancy)
  else if trad_confidence < 6/10 ∧ ml_confidence > confidence_threshold then
    (create_ml_interpretation ml_interp, none)
  else
    (.traditional trad_interp, none)

/-- Embeds `_ml_fallback_fusion`. -/
def ml_fallback_fusion (_field_id : String)
    (trad_interp : TraditionalInterpretation) (ml_interp : MLInterpretation)
    (_confidence_threshold : ℚ) : FusedValue × Option Discrepancy :=
  if trad_interp.overall_confidence_score < 6/10 then
    (create_ml_interpretation ml_interp, none)
  else
    (.traditional trad_interp, none)

/-- Embeds `_traditional_primary_fusion`. -/
def traditional_primary_fusion (field_id : String)
    (trad_interp : TraditionalInterpretation) (ml_interp : MLInterpretation) :
    FusedValue × Option Discrepancy :=
  let trad_response := trad_interp.matched_bubbles
  let ml_response := ml_interp.detected_bubbles
  if responses_agree trad_response ml_response then
    (.traditional trad_interp, none)
  else
    (.traditional trad_interp,
      some { field_id := field_id
             traditional_response := trad_response
             ml_response := ml_response
             reason := "informational_difference" })

/-- Embeds the `FUSION_STRATEGIES` name lookup plus
`getattr`-based dispatch of `fuse_detections`; an unknown strategy name
falls back to the traditional interpretation with a warning. -/
def dispatch_strategy (fusion_strategy field_id : String)
    (trad_interp : TraditionalInterpretation) (ml_interp : MLInterpretation)
    (confidence_threshold : ℚ) : FusedValue × Option Discrepancy :=
  if fusion_strategy = "confidence_weighted" then
    confidence_weighted_fusion field_id trad_interp ml_interp confidence_threshold
  else if fusion_strategy = "ml_fallback" then
    ml_fallback_fusion field_id trad_interp ml_interp confidence_threshold
  else if fusion_strategy = "traditional_primary" then
    traditional_primary_fusion field_id trad_interp ml_interp
  else
    (.traditional trad_interp, none)

/-- Embeds the loop body of `fuse_detections` over the
`field_id_to_interpretation` entries (a Python dict iterated in insertion
order, modelled as an association list), producing the fused response map
and the discrepancy list in iteration order. -/
def fuse_detections (fusion_strategy : String)
    (ml_blocks_response : List MLInterpretation)
    (confidence_threshold : ℚ) :
    List (String × TraditionalInterpretation) →
      List (String × FusedValue) × List Discrepancy
  | [] => ([], [])
  | (field_id, trad_interp) :: rest =>
    let step : FusedValue × Option Discrepancy :=
      match find_ml_interpretation field_id ml_blocks_response with
      | none => (.traditional trad_interp, none)
      | some ml_interp =>
          dispatch_strategy fusion_strategy field_id trad_interp ml_interp
            confidence_threshold
    let tail :=
      fuse_detections fusion_strategy ml_blocks_response confidence_threshold rest
    ((field_id, step.1) :: tail.1,
      match step.2 with
      | some d => d :: tail.2
      | none => tail.2)

end DetectionFusion

/-! ## Shift validation (`shift_detection_processor.py`, `utils/geometry.py`) -/

/-- One ML shift proposal: block name and its `(dx, dy)` shift. -/
structure ShiftProposal where
  block_name : String
  dx : ℚ
  dy : ℚ
  deriving Repr, DecidableEq

/-- The shift-detection configuration fields `_validate_shifts` reads. -/
structure ShiftDetectionConfig where
  global_max_shift_pixels : ℚ
  per_block_max_shift_pixels : List (String × ℚ) := []
  deriving Repr, DecidableEq

/-- Embeds `per_block_max_shift_pixels.get(block_name, global_max)`. -/
def max_shift_for (config : ShiftDetectionConfig) (block_name : String) : ℚ :=
  match config.per_block_max_shift_pixels.find? (fun p => p.1 = block_name) with
  | some p => p.2
  | none => config.global_max_shift_pixels

/-- Embeds the acceptance test
`vector_magnitude([dx, dy]) <= max_shift`, where `vector_magnitude` is
`sqrt(dx^2 + dy^2)` (`utils/geometry.py`); since both sides are compared
with a nonnegative square root, the test is embedded exactly as
`0 <= max_shift` and `dx^2 + dy^2 <= max_shift^2`. -/
def shift_accepted (p : ShiftProposal) (max_shift : ℚ) : Bool :=
  decide (0 ≤ max_shift) && decide (p.dx ^ 2 + p.dy ^ 2 ≤ max_shift ^ 2)

/-- The mutable counters of `ShiftDetectionProcessor.stats` touched by
`_validate_shifts`. -/
structure ShiftStats where
  shifts_applied : Nat := 0
  shifts_rejected : Nat := 0
  deriving Repr, DecidableEq

namespace ShiftDetectionProcessor

/-- Embeds `_validate_shifts`: accepted proposals are added to the
validated map in iteration order, and the applied/rejected counters are
incremented per proposal. -/
def validate_shifts (config : ShiftDetectionConfig) :
    List ShiftProposal → ShiftStats → List ShiftProposal × ShiftStats
  | [], stats => ([], stats)
  | p :: rest, stats =>
    if shift_accepted p (max_shift_for config p.block_name) then
      let tail := validate_shifts config rest
        { stats with shifts_applied := stats.shifts_applied + 1 }
      (p :: tail.1, tail.2)
    else
      validate_shifts config rest
        { stats with shifts_rejected := stats.shifts_rejected + 1 }

end ShiftDetectionProcessor

/-- A template field block, seen through the attributes the shift
processor touches: its `name` and its applied `shifts`. -/
structure FieldBlock where
  name : String
  shifts : List ℚ := [0, 0]
  deriving Repr, DecidableEq

/-- Modelled from the spec: `FieldBlock.reset_all_shifts` — the layout
class defining it is not under `src/` (only its callers are); per the spec
"Always discard the shift copy afterward (shifts never persist on the
canonical layout)", it resets the block's applied shifts to zero. -/
def FieldBlock.reset_all_shifts (b : FieldBlock) : FieldBlock :=
  { b with shifts := [0, 0] }

namespace ShiftDetectionProcessor

/-- Embeds `_find_block_by_name` followed by `block.shifts = [dx, dy]`:
only the first block carrying the name is mutated; no match leaves the
template unchanged. -/
def set_block_shift : List FieldBlock → ShiftProposal → List FieldBlock
  | [], _ => []
  | b :: rest, p =>
    if b.name = p.block_name then { b with shifts := [p.dx, p.dy] } :: rest
    else b :: set_block_shift rest p

/-- Embeds `_run_detection_with_shifts` as a transformation of the
template state: apply each validated shift, run detection on the shifted
template, then call `reset_all_shifts` on every field block. Returns the
detection output and the template's final state. -/
def run_detection_with_shifts {α : Type} (detect : List FieldBlock → α)
    (template : List FieldBlock) (shifts : List ShiftProposal) :
    α × List FieldBlock :=
  let shifted := shifts.foldl set_block_shift template
  (detect shifted, shifted.map FieldBlock.reset_all_shifts)

/-- Embeds `_run_detection_without_shifts`: the baseline pass just runs
detection on the template as it stands. -/
def run_detection_without_shifts {α : Type} (detect : List FieldBlock → α)
    (template : List FieldBlock) : α :=
  detect template

end ShiftDetectionProcessor

/-! ## Detection repository (`repositories/detection_repository.py`) -/

/-- Errors raised by the repository: `RuntimeError` for access without an
active file, `KeyError` for a missing key. -/
inductive RepoError where
  | runtimeError (msg : String)
  | keyError (msg : String)
  deriving Repr, DecidableEq

/-- Embeds dataclass `FileDetectionResults`, restricted to the bubble
fields (the dict is modelled as an association list in insertion order;
OCR/barcode fields and timestamps are symmetric and untouched by the
claims). -/
structure FileDetectionResults where
  file_path : String
  bubble_fields : List (String × BubbleFieldDetectionResult) := []
  deriving Repr, DecidableEq

/-- Embeds the state of a `DetectionRepository` instance. -/
structure DetectionRepository where
  current_file_results : Option FileDetectionResults := none
  file_results : List (String × FileDetectionResults) := []
  directory_path : Option String := none
  deriving Repr, DecidableEq

namespace DetectionRepository

/-- The state `__init__` constructs: everything empty. -/
def init : DetectionRepository := {}

/-- Embeds `initialize_file`: start a fresh current file. -/
def initialize_file (r : DetectionRepository) (file_path : String) :
    DetectionRepository :=
  { r with current_file_results := some { file_path := file_path } }

/-- Embeds `initialize_directory`: record the directory, clear all stored
file results, and drop the current file. -/
def initialize_directory (_r : DetectionRepository) (directory_path : String) :
    DetectionRepository :=
  { directory_path := some directory_path
    file_results := []
    current_file_results := none }

/-- Embeds `get_current_file_results`: raises `RuntimeError` when no file
is being processed. -/
def get_current_file_results (r : DetectionRepository) :
    Except RepoError FileDetectionResults :=
  match r.current_file_results with
  | none => .error (.runtimeError ("No file currently being processed"))
  | some current => .ok current

/-- Python dict assignment `d[k] = v` on an insertion-ordered dict:
overwrite in place when the key exists, else append. -/
def dictSet {α : Type} (entries : List (String × α)) (key : String) (value : α) :
    List (String × α) :=
  match entries with
  | [] => [(key, value)]
  | (k, v) :: rest =>
    if k = key then (k, value) :: rest else (k, v) :: dictSet rest key value

/-- Embeds `save_bubble_field`: goes through
`get_current_file_results` and stores the result under the field id. -/
def save_bubble_field (r : DetectionRepository) (field_id : String)
    (result : BubbleFieldDetectionResult) : Except RepoError DetectionRepository :=
  match get_current_file_results r with
  | .error e => .error e
  | .ok current =>
      .ok { r with
        current_file_results :=
          some { current with
            bubble_fields := dictSet current.bubble_fields field_id result } }

/-- Embeds `get_bubble_field`: goes through `get_current_file_results`,
then raises `KeyError` when the field id was never saved. -/
def get_bubble_field (r : DetectionRepository) (field_id : String) :
    Except RepoError BubbleFieldDetectionResult :=
  match get_current_file_results r with
  | .error e => .error e
  | .ok current =>
    match current.bubble_fields.find? (fun p => p.1 = field_id) with
    | none => .error (.keyError ("Bubble field not found: " ++ field_id))
    | some p => .ok p.2

/-- Embeds `finalize_file`: store the current file results (if any) under
their path. -/
def finalize_file (r : DetectionRepository) : DetectionRepository :=
  match r.current_file_results with
  | none => r
  | some current =>
      { r with
        file_results := dictSet r.file_results current.file_path current }

end DetectionRepository

/-! ## General lemmas about the embedded primitives -/

theorem foldl_min_le_init (l : List ℚ) (a : ℚ) : l.foldl min a ≤ a := by
  induction l generalizing a with
  | nil => exact le_rfl
  | cons x xs ih => exact le_trans (ih (min a x)) (min_le_left a x)

theorem foldl_min_le_mem (l : List ℚ) (a b : ℚ) (hb : b ∈ l) : l.foldl min a ≤ b := by
  induction l generalizing a with
  | nil => cases hb
  | cons x xs ih =>
    rcases List.mem_cons.mp hb with rfl | hb
    · exact le_trans (foldl_min_le_init xs (min a b)) (min_le_right a b)
    · exact ih (min a x) hb

theorem init_le_foldl_max (l : List ℚ) (a : ℚ) : a ≤ l.foldl max a := by
  induction l generalizing a with
  | nil => exact le_rfl
  | cons x xs ih => exact le_trans (le_max_left a x) (ih (max a x))

theorem mem_le_foldl_max (l : List ℚ) (a b : ℚ) (hb : b ∈ l) : b ≤ l.foldl max a := by
  induction l generalizing a with
  | nil => cases hb
  | cons x xs ih =>
    rcases List.mem_cons.mp hb with rfl | hb
    · exact le_trans (le_max_right a b) (init_le_foldl_max xs (max a b))
    · exact ih (max a x) hb

theorem foldl_max_mem (l : List ℚ) (a : ℚ) : l.foldl max a ∈ a :: l := by
  induction l generalizing a with
  | nil => exact List.mem_singleton.mpr rfl
  | cons x xs ih =>
    show List.foldl max (max a x) xs ∈ a :: x :: xs
    rcases max_choice a x with hc | hc <;> rw [hc]
    · rcases List.mem_cons.mp (ih a) with h1 | h1
      · rw [h1]; exact List.mem_cons_self a (x :: xs)
      · exact List.mem_cons_of_mem a (List.mem_cons_of_mem x h1)
    · rcases List.mem_cons.mp (ih x) with h1 | h1
      · rw [h1]; exact List.mem_cons_of_mem a (List.mem_cons_self x xs)
      · exact List.mem_cons_of_mem a (List.mem_cons_of_mem x h1)

theorem pyMin_le_of_mem {l : List ℚ} {a : ℚ} (ha : a ∈ l) : pyMin l ≤ a := by
  cases l with
  | nil => cases ha
  | cons x xs =>
    unfold pyMin
    rcases List.mem_cons.mp ha with rfl | ha
    · exact le_trans (foldl_min_le_init (a :: xs) a) le_rfl
    · exact foldl_min_le_mem (x :: xs) x a (List.mem_cons_of_mem x ha)

theorem le_pyMax_of_mem {l : List ℚ} {a : ℚ} (ha : a ∈ l) : a ≤ pyMax l := by
  cases l with
  | nil => cases ha
  | cons x xs =>
    unfold pyMax
    exact mem_le_foldl_max (x :: xs) x a ha

theorem pyMax_mem {l : List ℚ} (hl : l ≠ []) : pyMax l ∈ l := by
  cases l with
  | nil => exact absurd rfl hl
  | cons x xs =>
    unfold pyMax
    simpa using foldl_max_mem (x :: xs) x

theorem sortValues_sorted (v : List ℚ) : (sortValues v).Sorted (· ≤ ·) :=
  List.sorted_insertionSort _ v

theorem sortValues_perm (v : List ℚ) : List.Perm (sortValues v) v :=
  List.perm_insertionSort _ v

theorem sortValues_length (v : List ℚ) : (sortValues v).length = v.length :=
  List.length_insertionSort _ v

theorem sortValues_pair (a b : ℚ) :
    sortValues [a, b] = if a ≤ b then [a, b] else [b, a] := by
  by_cases h : a ≤ b <;>
    simp [sortValues, List.insertionSort, List.orderedInsert, h]

/-! ## Lemmas about the max-jump scan -/

theorem maxJumpScan_nil (s : List ℚ) (acc : ℚ × ℚ) : maxJumpScan s [] acc = acc :=
  rfl

theorem maxJumpScan_cons (s : List ℚ) (j : Nat) (idxs : List Nat) (acc : ℚ × ℚ) :
    maxJumpScan s (j :: idxs) acc =
      maxJumpScan s idxs
        (if acc.1 < jumpAt s j then (jumpAt s j, midAt s j) else acc) :=
  rfl

/-- Provenance of the scan state: the final accumulator is either the
initial one or the `(jump, threshold)` pair computed at one of the
scanned indices. -/
theorem maxJumpScan_eq_init_or_window (s : List ℚ) (idxs : List Nat) (acc : ℚ × ℚ) :
    maxJumpScan s idxs acc = acc ∨
      ∃ i ∈ idxs, maxJumpScan s idxs acc = (jumpAt s i, midAt s i) := by
  induction idxs generalizing acc with
  | nil => exact Or.inl rfl
  | cons j rest ih =>
    rw [maxJumpScan_cons]
    by_cases h : acc.1 < jumpAt s j
    · rw [if_pos h]
      rcases ih (jumpAt s j, midAt s j) with h1 | ⟨i, hi, h2⟩
      · exact Or.inr ⟨j, List.mem_cons_self j rest, h1⟩
      · exact Or.inr ⟨i, List.mem_cons_of_mem j hi, h2⟩
    · rw [if_neg h]
      rcases ih acc with h1 | ⟨i, hi, h2⟩
      · exact Or.inl h1
      · exact Or.inr ⟨i, List.mem_cons_of_mem j hi, h2⟩

/-- When no scanned jump beats the initial maximum, the scan leaves the
accumulator untouched. -/
theorem maxJumpScan_no_update (s : List ℚ) (idxs : List Nat) (acc : ℚ × ℚ)
    (h : ∀ i ∈ idxs, ¬ acc.1 < jumpAt s i) : maxJumpScan s idxs acc = acc := by
  induction idxs with
  | nil => rfl
  | cons j rest ih =>
    rw [maxJumpScan_cons, if_neg (h j (List.mem_cons_self j rest))]
    exact ih fun i hi => h i (List.mem_cons_of_mem j hi)

/-- A window threshold `midAt` computed at a scanned index lies between
the minimum and the maximum of the input values. -/
theorem midAt_between (v : List ℚ) (i : Nat)
    (hi : i ∈ scanIndices (sortValues v).length) :
    pyMin v ≤ midAt (sortValues v) i ∧ midAt (sortValues v) i ≤ pyMax v := by
  set s := sortValues v with hs
  obtain ⟨h1, h2⟩ := List.mem_range'_1.mp hi
  have hn : 2 ≤ s.length := by omega
  have hlo : i - 1 < s.length := by omega
  have hhi : i + 1 < s.length := by omega
  have hle : s[i - 1] ≤ s[i + 1] := by
    have := (sortValues_sorted v).rel_get_of_lt
      (a := ⟨i - 1, hlo⟩) (b := ⟨i + 1, hhi⟩) (by simp [Fin.lt_def]; omega)
    simpa [hs] using this
  have hmemlo : s[i - 1] ∈ v := (sortValues_perm v).mem_iff.mp (List.getElem_mem hlo)
  have hmemhi : s[i + 1] ∈ v := (sortValues_perm v).mem_iff.mp (List.getElem_mem hhi)
  have hmid : midAt s i = s[i - 1] + (s[i + 1] - s[i - 1]) / 2 := by
    rw [midAt, jumpAt, List.getD_eq_getElem s 0 hlo, List.getD_eq_getElem s 0 hhi]
  constructor
  · calc pyMin v ≤ s[i - 1] := pyMin_le_of_mem hmemlo
    _ ≤ midAt s i := by rw [hmid]; linarith
  · calc midAt s i ≤ s[i + 1] := by rw [hmid]; linarith
    _ ≤ pyMax v := le_pyMax_of_mem hmemhi

/-! ## Unfolding lemmas for the strategy branches -/

theorem global_calculate_of_ge_two (values : List ℚ) (config : ThresholdConfig)
    (h : ¬ values.length < 2) :
    GlobalThresholdStrategy.calculate_threshold values config =
      { threshold_value := (maxJumpScan (sortValues values)
            (scanIndices (sortValues values).length)
            (config.min_jump, config.default_threshold)).2
        confidence := min 1 ((maxJumpScan (sortValues values)
            (scanIndices (sortValues values).length)
            (config.min_jump, config.default_threshold)).1 / (config.min_jump * 3))
        max_jump := (maxJumpScan (sortValues values)
            (scanIndices (sortValues values).length)
            (config.min_jump, config.default_threshold)).1
        method_used := "global_max_jump"
        fallback_used := decide ((maxJumpScan (sortValues values)
            (scanIndices (sortValues values).length)
            (config.min_jump, config.default_threshold)).1 < config.min_jump) } := by
  simp only [GlobalThresholdStrategy.calculate_threshold, if_neg h]

theorem local_calculate_of_ge_three (global_fallback : Option ℚ) (values : List ℚ)
    (config : ThresholdConfig) (h : ¬ values.length < 2)
    (h2 : ¬ (sortValues values).length = 2) :
    LocalThresholdStrategy.calculate_threshold global_fallback values config =
      (if (maxJumpScan (sortValues values) (scanIndices (sortValues values).length)
            (0, LocalThresholdStrategy.fallback_threshold global_fallback config)).1 <
          config.min_jump + config.min_jump_surplus_for_global_fallback then
        { threshold_value := LocalThresholdStrategy.fallback_threshold global_fallback config
          confidence := 2/5
          max_jump := (maxJumpScan (sortValues values)
              (scanIndices (sortValues values).length)
              (0, LocalThresholdStrategy.fallback_threshold global_fallback config)).1
          method_used := "local_low_confidence_global_fallback"
          fallback_used := true }
      else
        { threshold_value := (maxJumpScan (sortValues values)
              (scanIndices (sortValues values).length)
              (0, LocalThresholdStrategy.fallback_threshold global_fallback config)).2
          confidence := min 1 ((maxJumpScan (sortValues values)
              (scanIndices (sortValues values).length)
              (0, LocalThresholdStrategy.fallback_threshold global_fallback config)).1 /
                ((config.min_jump + config.min_jump_surplus_for_global_fallback) * 2))
          max_jump := (maxJumpScan (sortValues values)
              (scanIndices (sortValues values).length)
              (0, LocalThresholdStrategy.fallback_threshold global_fallback config)).1
          method_used := "local_max_jump"
          fallback_used := false }) := by
  simp only [LocalThresholdStrategy.calculate_threshold, if_neg h, if_neg h2]

/-! ## Claim theorems -/

/-- C1 (counterexample): with two samples `[100, 101]` and the default
configuration, the Global strategy's scan loop is empty, so the returned
threshold is the default `127.5`, strictly above `max(values) = 101` —
the claimed invariant `min ≤ threshold ≤ max` fails. -/
theorem c1_counterexample :
    2 ≤ [(100 : ℚ), 101].length ∧
      pyMax [(100 : ℚ), 101] <
        (GlobalThresholdStrategy.calculate_threshold [100, 101]
          ({} : ThresholdConfig)).threshold_value := by
  constructor
  · norm_num
  · norm_num [GlobalThresholdStrategy.calculate_threshold, sortValues, maxJumpScan,
      scanIndices, jumpAt, midAt, List.insertionSort, List.orderedInsert,
      List.range', pyMax]

/-- C1 (amended): whenever the returned threshold was actually computed
at a max-jump window — for Global: the returned `max_jump` strictly
exceeds `config.min_jump`; for Local: `fallback_used` is `false` (with a
positive confident-jump bound in the 3+ case) — the threshold lies
between the minimum and maximum of the input values. The original claim
fails when the strategies keep their fallback/default value. -/
theorem c1_threshold_within_range :
    (∀ (values : List ℚ) (config : ThresholdConfig), 2 ≤ values.length →
      config.min_jump <
        (GlobalThresholdStrategy.calculate_threshold values config).max_jump →
      pyMin values ≤
          (GlobalThresholdStrategy.calculate_threshold values config).threshold_value ∧
        (GlobalThresholdStrategy.calculate_threshold values config).threshold_value ≤
          pyMax values) ∧
    (∀ (global_fallback : Option ℚ) (values : List ℚ) (config : ThresholdConfig),
      values.length = 2 →
      (LocalThresholdStrategy.calculate_threshold global_fallback values
          config).fallback_used = false →
      pyMin values ≤
          (LocalThresholdStrategy.calculate_threshold global_fallback values
            config).threshold_value ∧
        (LocalThresholdStrategy.calculate_threshold global_fallback values
            config).threshold_value ≤ pyMax values) ∧
    (∀ (global_fallback : Option ℚ) (values : List ℚ) (config : ThresholdConfig),
      3 ≤ values.length →
      0 < config.min_jump + config.min_jump_surplus_for_global_fallback →
      (LocalThresholdStrategy.calculate_threshold global_fallback values
          config).fallback_used = false →
      pyMin values ≤
          (LocalThresholdStrategy.calculate_threshold global_fallback values
            config).threshold_value ∧
        (LocalThresholdStrategy.calculate_threshold global_fallback values
            config).threshold_value ≤ pyMax values) := by
  refine ⟨?_, ?_, ?_⟩
  · intro values config h2 hjump
    have hnot : ¬ values.length < 2 := by omega
    rw [global_calculate_of_ge_two values config hnot] at hjump ⊢
    rcases maxJumpScan_eq_init_or_window (sortValues values)
        (scanIndices (sortValues values).length)
        (config.min_jump, config.default_threshold) with hscan | ⟨i, hi, hscan⟩
    · rw [hscan] at hjump
      exact absurd hjump (lt_irrefl _)
    · rw [hscan]
      exact midAt_between values i hi
  · intro global_fallback values config hlen hfb
    obtain ⟨a, b, rfl⟩ := List.length_eq_two.mp hlen
    have hmina : pyMin [a, b] ≤ a := pyMin_le_of_mem (by simp)
    have hminb : pyMin [a, b] ≤ b := pyMin_le_of_mem (by simp)
    have hmaxa : a ≤ pyMax [a, b] := le_pyMax_of_mem (by simp)
    have hmaxb : b ≤ pyMax [a, b] := le_pyMax_of_mem (by simp)
    by_cases hle : a ≤ b
    · have hs : sortValues [a, b] = [a, b] := by rw [sortValues_pair, if_pos hle]
      by_cases hgap : b - a < config.min_gap_two_bubbles
      · exfalso
        simp [LocalThresholdStrategy.calculate_threshold, hs, hgap] at hfb
      · simp only [LocalThresholdStrategy.calculate_threshold, hs]
        simp [hgap]
        constructor <;> linarith
    · have hs : sortValues [a, b] = [b, a] := by rw [sortValues_pair, if_neg hle]
      by_cases hgap : a - b < config.min_gap_two_bubbles
      · exfalso
        simp [LocalThresholdStrategy.calculate_threshold, hs, hgap] at hfb
      · simp only [LocalThresholdStrategy.calculate_threshold, hs]
        simp [hgap]
        constructor <;> linarith
  · intro global_fallback values config h3 hpos hfb
    have hnot : ¬ values.length < 2 := by omega
    have hne2 : ¬ (sortValues values).length = 2 := by
      rw [sortValues_length]; omega
    rw [local_calculate_of_ge_three global_fallback values config hnot hne2] at hfb ⊢
    by_cases hc : (maxJumpScan (sortValues values)
        (scanIndices (sortValues values).length)
        (0, LocalThresholdStrategy.fallback_threshold global_fallback config)).1 <
          config.min_jump + config.min_jump_surplus_for_global_fallback
    · rw [if_pos hc] at hfb
      exact absurd hfb (by simp)
    · rw [if_neg hc] at hfb ⊢
      rcases maxJumpScan_eq_init_or_window (sortValues values)
          (scanIndices (sortValues values).length)
          (0, LocalThresholdStrategy.fallback_threshold global_fallback config) with
        hscan | ⟨i, hi, hscan⟩
      · exfalso
        rw [hscan] at hc
        exact hc (by simpa using hpos)
      · rw [hscan]
        exact midAt_between values i hi

/-- C1 (witness): concrete instances of all three amended cases. -/
theorem c1_witness :
    (2 ≤ [(100 : ℚ), 105, 200].length ∧
      ({} : ThresholdConfig).min_jump <
        (GlobalThresholdStrategy.calculate_threshold [100, 105, 200]
          ({} : ThresholdConfig)).max_jump ∧
      (pyMin [(100 : ℚ), 105, 200] ≤
          (GlobalThresholdStrategy.calculate_threshold [100, 105, 200]
            ({} : ThresholdConfig)).threshold_value ∧
        (GlobalThresholdStrategy.calculate_threshold [100, 105, 200]
            ({} : ThresholdConfig)).threshold_value ≤ pyMax [(100 : ℚ), 105, 200])) ∧
    ((LocalThresholdStrategy.calculate_threshold none [100, 130]
        ({} : ThresholdConfig)).fallback_used = false ∧
      (pyMin [(100 : ℚ), 130] ≤
          (LocalThresholdStrategy.calculate_threshold none [100, 130]
            ({} : ThresholdConfig)).threshold_value ∧
        (LocalThresholdStrategy.calculate_threshold none [100, 130]
            ({} : ThresholdConfig)).threshold_value ≤ pyMax [(100 : ℚ), 130])) ∧
    ((LocalThresholdStrategy.calculate_threshold (some 180) [100, 105, 200]
        ({} : ThresholdConfig)).fallback_used = false ∧
      (pyMin [(100 : ℚ), 105, 200] ≤
          (LocalThresholdStrategy.calculate_threshold (some 180) [100, 105, 200]
            ({} : ThresholdConfig)).threshold_value ∧
        (LocalThresholdStrategy.calculate_threshold (some 180) [100, 105, 200]
            ({} : ThresholdConfig)).threshold_value ≤ pyMax [(100 : ℚ), 105, 200])) := by
  have hg : ({} : ThresholdConfig).min_jump <
      (GlobalThresholdStrategy.calculate_threshold [100, 105, 200]
        ({} : ThresholdConfig)).max_jump := by
    norm_num [GlobalThresholdStrategy.calculate_threshold, sortValues, maxJumpScan,
      scanIndices, jumpAt, midAt, List.insertionSort, List.orderedInsert, List.range']
  have hl2 : (LocalThresholdStrategy.calculate_threshold none [100, 130]
      ({} : ThresholdConfig)).fallback_used = false := by
    norm_num [LocalThresholdStrategy.calculate_threshold,
      LocalThresholdStrategy.fallback_threshold, sortValues, List.insertionSort,
      List.orderedInsert]
  have hl3 : (LocalThresholdStrategy.calculate_threshold (some 180) [100, 105, 200]
      ({} : ThresholdConfig)).fallback_used = false := by
    norm_num [LocalThresholdStrategy.calculate_threshold,
      LocalThresholdStrategy.fallback_threshold, sortValues, maxJumpScan,
      scanIndices, jumpAt, midAt, List.insertionSort, List.orderedInsert, List.range']
  exact ⟨⟨by norm_num, hg,
      c1_threshold_within_range.1 [100, 105, 200] {} (by norm_num) hg⟩,
    ⟨hl2, c1_threshold_within_range.2.1 none [100, 130] {} (by norm_num) hl2⟩,
    ⟨hl3, c1_threshold_within_range.2.2 (some 180) [100, 105, 200] {}
      (by norm_num) (by norm_num) hl3⟩⟩

/-- C4 (counterexample): for samples `[100, 101, 102]` under the default
configuration every look-around jump (`2`) is below `min_jump = 30`, yet
the result has `fallback_used = false` (the tracked maximum is
initialized to `min_jump`, so the `max_jump < min_jump` test can never
fire) and the threshold is the default, not a computed max-jump
threshold. -/
theorem c4_counterexample :
    jumpAt (sortValues [100, 101, 102]) 1 < ({} : ThresholdConfig).min_jump ∧
      (GlobalThresholdStrategy.calculate_threshold [100, 101, 102]
        ({} : ThresholdConfig)).fallback_used = false ∧
      (GlobalThresholdStrategy.calculate_threshold [100, 101, 102]
        ({} : ThresholdConfig)).threshold_value =
          ({} : ThresholdConfig).default_threshold := by
  refine ⟨?_, ?_, ?_⟩ <;>
    norm_num [GlobalThresholdStrategy.calculate_threshold, sortValues, maxJumpScan,
      scanIndices, jumpAt, midAt, List.insertionSort, List.orderedInsert, List.range']

/-- C4 (amended): for at least two samples, if every look-around jump of
the Global scan is strictly below `config.min_jump` then the returned
result has `fallback_used = false` and `threshold_value` equal to the
default threshold, with `max_jump` reported as `config.min_jump` (the
tracked maximum is initialized to `min_jump` and never drops below it). -/
theorem c4_small_jumps_keep_default (values : List ℚ) (config : ThresholdConfig)
    (h2 : 2 ≤ values.length)
    (hjumps : ∀ i ∈ scanIndices (sortValues values).length,
      jumpAt (sortValues values) i < config.min_jump) :
    (GlobalThresholdStrategy.calculate_threshold values config).fallback_used = false ∧
      (GlobalThresholdStrategy.calculate_threshold values config).threshold_value =
        config.default_threshold ∧
      (GlobalThresholdStrategy.calculate_threshold values config).max_jump =
        config.min_jump := by
  have hnot : ¬ values.length < 2 := by omega
  have hscan : maxJumpScan (sortValues values) (scanIndices (sortValues values).length)
      (config.min_jump, config.default_threshold) =
        (config.min_jump, config.default_threshold) :=
    maxJumpScan_no_update _ _ _ fun i hi => not_lt_of_gt (hjumps i hi)
  rw [global_calculate_of_ge_two values config hnot]
  simp [hscan]

/-- C4 (witness): the amended statement at `[100, 101, 102]` with the
default configuration. -/
theorem c4_witness :
    (2 ≤ [(100 : ℚ), 101, 102].length) ∧
      ((GlobalThresholdStrategy.calculate_threshold [100, 101, 102]
          ({} : ThresholdConfig)).fallback_used = false ∧
        (GlobalThresholdStrategy.calculate_threshold [100, 101, 102]
            ({} : ThresholdConfig)).threshold_value =
          ({} : ThresholdConfig).default_threshold ∧
        (GlobalThresholdStrategy.calculate_threshold [100, 101, 102]
            ({} : ThresholdConfig)).max_jump = ({} : ThresholdConfig).min_jump) :=
  ⟨by norm_num,
    c4_small_jumps_keep_default [100, 101, 102] {} (by norm_num)
      (by
        intro i hi
        have : i = 1 := by
          simpa [scanIndices, sortValues, List.insertionSort, List.orderedInsert,
            List.range'] using hi
        subst this
        norm_num [jumpAt, sortValues, List.insertionSort, List.orderedInsert])⟩

/-- C7 (confirmed): Local with exactly two samples returns the fallback
threshold with confidence `0.3` and `fallback_used = true` when the gap
is below `min_gap_two_bubbles`, and otherwise the mean of the two values
with confidence `0.7` and `fallback_used = false`; in particular
`[100, 110]` with `global_fallback = 180` under the default configuration
(`min_gap_two_bubbles = 20 ≤ 30`) yields threshold `180`,
`fallback_used = true`. -/
theorem c7_local_two_samples :
    (∀ (global_fallback : Option ℚ) (a b : ℚ) (config : ThresholdConfig),
      (|a - b| < config.min_gap_two_bubbles →
        LocalThresholdStrategy.calculate_threshold global_fallback [a, b] config =
          { threshold_value :=
              LocalThresholdStrategy.fallback_threshold global_fallback config
            confidence := 3/10
            max_jump := |a - b|
            method_used := "local_two_bubbles_small_gap_fallback"
            fallback_used := true }) ∧
      (config.min_gap_two_bubbles ≤ |a - b| →
        LocalThresholdStrategy.calculate_threshold global_fallback [a, b] config =
          { threshold_value := (a + b) / 2
            confidence := 7/10
            max_jump := |a - b|
            method_used := "local_two_bubbles_mean"
            fallback_used := false })) ∧
    LocalThresholdStrategy.calculate_threshold (some 180) [100, 110]
        ({} : ThresholdConfig) =
      { threshold_value := 180, confidence := 3/10, max_jump := 10
        method_used := "local_two_bubbles_small_gap_fallback"
        fallback_used := true } := by
  constructor
  · intro global_fallback a b config
    by_cases hle : a ≤ b
    · have hs : sortValues [a, b] = [a, b] := by rw [sortValues_pair, if_pos hle]
      have habs : |a - b| = b - a := by
        rw [abs_sub_comm]
        exact abs_of_nonneg (by linarith)
      constructor
      · intro hgap
        rw [habs] at hgap
        simp [LocalThresholdStrategy.calculate_threshold, hs, hgap, habs]
      · intro hgap
        rw [habs] at hgap
        have hgap' : ¬ b - a < config.min_gap_two_bubbles := not_lt_of_ge hgap
        simp [LocalThresholdStrategy.calculate_threshold, hs, hgap', habs]
    · have hs : sortValues [a, b] = [b, a] := by rw [sortValues_pair, if_neg hle]
      have hba : b ≤ a := le_of_not_le hle
      have habs : |a - b| = a - b := abs_of_nonneg (by linarith)
      constructor
      · intro hgap
        rw [habs] at hgap
        simp [LocalThresholdStrategy.calculate_threshold, hs, hgap, habs]
      · intro hgap
        rw [habs] at hgap
        have hgap' : ¬ a - b < config.min_gap_two_bubbles := not_lt_of_ge hgap
        have hcomm : (b + a) / 2 = (a + b) / 2 := by ring
        simp [LocalThresholdStrategy.calculate_threshold, hs, hgap', habs, hcomm]
  · norm_num [LocalThresholdStrategy.calculate_threshold,
      LocalThresholdStrategy.fallback_threshold, sortValues, List.insertionSort,
      List.orderedInsert]

/-- C7 (witness): the no-fallback branch at `[100, 130]` (gap `30`,
above the default `min_gap_two_bubbles = 20`). -/
theorem c7_witness :
    ({} : ThresholdConfig).min_gap_two_bubbles ≤ |(100 : ℚ) - 130| ∧
      LocalThresholdStrategy.calculate_threshold none [100, 130]
          ({} : ThresholdConfig) =
        { threshold_value := ((100 : ℚ) + 130) / 2
          confidence := 7/10
          max_jump := |(100 : ℚ) - 130|
          method_used := "local_two_bubbles_mean"
          fallback_used := false } :=
  ⟨by norm_num,
    (c7_local_two_samples.1 none 100 130 {}).2 (by norm_num)⟩

/-- C2 (code bug): the `scan_quality_map` literal keys (`"EXCELLENT"`,
`"GOOD"`, `"MODERATE"`, `"POOR"`) never match the lowercase
`ScanQuality.value` strings used as lookup keys, so the factor the code
computes is the `0.5` default for every field — including a field whose
scan quality is excellent (bubble means `[0, 200]`, variance `10000`),
where the claim (and the map itself) intends `1.0`. -/
theorem c2_scan_quality_factor_always_default :
    (∀ r : BubbleFieldDetectionResult,
      BubblesFieldInterpretation.scan_quality_factor r = 1/2) ∧
    BubbleFieldDetectionResult.scan_quality
        ⟨"f1", "f1", [⟨0, "A", (0, 0)⟩, ⟨200, "B", (0, 0)⟩]⟩ =
      ScanQuality.EXCELLENT ∧
    BubblesFieldInterpretation.scan_quality_factor
        ⟨"f1", "f1", [⟨0, "A", (0, 0)⟩, ⟨200, "B", (0, 0)⟩]⟩ = 1/2 := by
  have hall : ∀ r : BubbleFieldDetectionResult,
      BubblesFieldInterpretation.scan_quality_factor r = 1/2 := by
    intro r
    cases h : r.scan_quality <;>
      simp [BubblesFieldInterpretation.scan_quality_factor,
        BubblesFieldInterpretation.scan_quality_map, ScanQuality.value, h,
        List.find?]
  refine ⟨hall, ?_, hall _⟩
  norm_num [BubbleFieldDetectionResult.scan_quality,
    BubbleFieldDetectionResult.mean_variance, BubbleFieldDetectionResult.mean_values]

/-- C3 (confirmed): `_find_ml_interpretation` always returns `None`, so
`fuse_detections` maps every field id to its traditional interpretation
and records no discrepancy, for every strategy name, ML block list and
confidence threshold. -/
theorem c3_fusion_returns_traditional (fusion_strategy : String)
    (ml_blocks_response : List MLInterpretation) (confidence_threshold : ℚ)
    (trads : List (String × TraditionalInterpretation)) :
    DetectionFusion.fuse_detections fusion_strategy ml_blocks_response
        confidence_threshold trads =
      (trads.map fun p => (p.1, FusedValue.traditional p.2), []) := by
  induction trads with
  | nil => rfl
  | cons head rest ih =>
    simp [DetectionFusion.fuse_detections, DetectionFusion.find_ml_interpretation, ih]

/-- C5 (counterexample): a single-item field whose only value is below
the threshold has every item marked, so the response is the empty value,
but only one item is marked and `is_multi_marked` is `false` — the claim
asserts it would still be `true`. -/
theorem c5_counterexample :
    (0 : ℚ) < 10 ∧
      BubblesFieldInterpretation.get_field_interpretation_string
        [⟨0, "A", (0, 0)⟩] 10 "" = "" ∧
      BubblesFieldInterpretation.check_multi_marking [⟨0, "A", (0, 0)⟩] 10 = false := by
  refine ⟨by norm_num, ?_, ?_⟩ <;>
    norm_num [BubblesFieldInterpretation.get_field_interpretation_string,
      BubblesFieldInterpretation.marked_bubbles,
      BubblesFieldInterpretation.check_multi_marking,
      BubblesFieldInterpretation.is_attempted]

/-- C5 (amended): the response is the empty value when zero or all items
are marked; `is_multi_marked` is exactly `marked count > 1` regardless of
the forced-empty response; and for every field with **at least two
items** whose values are all below the threshold the response is the
empty value while `is_multi_marked` is still `true` (a one-item field
falsifies the unrestricted version). -/
theorem c5_empty_value_and_multi_marked (bubbles : List BubbleMeanValue)
    (threshold : ℚ) (empty_value : String) :
    (((bubbles.filter fun b =>
          BubblesFieldInterpretation.is_attempted b threshold).length = 0 ∨
        (bubbles.filter fun b =>
          BubblesFieldInterpretation.is_attempted b threshold).length =
          bubbles.length) →
      BubblesFieldInterpretation.get_field_interpretation_string bubbles threshold
        empty_value = empty_value) ∧
    (BubblesFieldInterpretation.check_multi_marking bubbles threshold = true ↔
      1 < (bubbles.filter fun b =>
        BubblesFieldInterpretation.is_attempted b threshold).length) ∧
    (2 ≤ bubbles.length → (∀ b ∈ bubbles, b.mean_value < threshold) →
      BubblesFieldInterpretation.get_field_interpretation_string bubbles threshold
          empty_value = empty_value ∧
        BubblesFieldInterpretation.check_multi_marking bubbles threshold = true) := by
  have hlen : (BubblesFieldInterpretation.marked_bubbles bubbles threshold).length =
      (bubbles.filter fun b =>
        BubblesFieldInterpretation.is_attempted b threshold).length :=
    List.length_map _ _
  have hempty : ((bubbles.filter fun b =>
        BubblesFieldInterpretation.is_attempted b threshold).length = 0 ∨
      (bubbles.filter fun b =>
        BubblesFieldInterpretation.is_attempted b threshold).length =
        bubbles.length) →
      BubblesFieldInterpretation.get_field_interpretation_string bubbles threshold
        empty_value = empty_value := by
    intro h
    unfold BubblesFieldInterpretation.get_field_interpretation_string
    by_cases hz : (BubblesFieldInterpretation.marked_bubbles bubbles threshold).length = 0
    · rw [if_pos hz]
    · rw [if_neg hz]
      have hfull : (BubblesFieldInterpretation.marked_bubbles bubbles
          threshold).length = bubbles.length := by
        rcases h with h | h
        · exact absurd (hlen.trans h) hz
        · exact hlen.trans h
      rw [if_pos hfull]
  have hmulti : BubblesFieldInterpretation.check_multi_marking bubbles threshold =
      true ↔ 1 < (bubbles.filter fun b =>
        BubblesFieldInterpretation.is_attempted b threshold).length := by
    simp [BubblesFieldInterpretation.check_multi_marking]
  refine ⟨hempty, hmulti, ?_⟩
  intro h2 hall
  have hfilter : bubbles.filter (fun b =>
      BubblesFieldInterpretation.is_attempted b threshold) = bubbles :=
    List.filter_eq_self.mpr fun b hb => by
      simpa [BubblesFieldInterpretation.is_attempted] using hall b hb
  constructor
  · exact hempty (Or.inr (by rw [hfilter]))
  · rw [hmulti, hfilter]
    omega

/-- C5 (witness): a two-item field with both values below the threshold
gives the empty response with `is_multi_marked = true`, and the amended
statement at that field. -/
theorem c5_witness :
    (2 ≤ ([⟨0, "A", (0, 0)⟩, ⟨1, "B", (0, 0)⟩] : List BubbleMeanValue).length) ∧
      BubblesFieldInterpretation.get_field_interpretation_string
        [⟨0, "A", (0, 0)⟩, ⟨1, "B", (0, 0)⟩] 10 "" = "" ∧
      BubblesFieldInterpretation.check_multi_marking
        [⟨0, "A", (0, 0)⟩, ⟨1, "B", (0, 0)⟩] 10 = true :=
  ⟨by norm_num,
    ((c5_empty_value_and_multi_marked [⟨0, "A", (0, 0)⟩, ⟨1, "B", (0, 0)⟩] 10
      "").2.2 (by norm_num) (by
        intro b hb
        rcases List.mem_cons.mp hb with rfl | hb
        · norm_num
        · rcases List.mem_singleton.mp hb with rfl
          norm_num)).1,
    ((c5_empty_value_and_multi_marked [⟨0, "A", (0, 0)⟩, ⟨1, "B", (0, 0)⟩] 10
      "").2.2 (by norm_num) (by
        intro b hb
        rcases List.mem_cons.mp hb with rfl | hb
        · norm_num
        · rcases List.mem_singleton.mp hb with rfl
          norm_num)).2⟩

/-- C6 (helper): the validated list is the filtered proposal list and
the two counters grow by exactly the number of accepted resp. rejected
proposals. -/
theorem validate_shifts_filter_and_counts (config : ShiftDetectionConfig)
    (proposals : List ShiftProposal) (stats : ShiftStats) :
    (ShiftDetectionProcessor.validate_shifts config proposals stats).1 =
      proposals.filter
        (fun p => shift_accepted p (max_shift_for config p.block_name)) ∧
    (ShiftDetectionProcessor.validate_shifts config proposals
        stats).2.shifts_applied =
      stats.shifts_applied + proposals.countP
        (fun p => shift_accepted p (max_shift_for config p.block_name)) ∧
    (ShiftDetectionProcessor.validate_shifts config proposals
        stats).2.shifts_rejected =
      stats.shifts_rejected + proposals.countP
        (fun p => !shift_accepted p (max_shift_for config p.block_name)) := by
  induction proposals generalizing stats with
  | nil => simp [ShiftDetectionProcessor.validate_shifts]
  | cons p rest ih =>
    by_cases h : shift_accepted p (max_shift_for config p.block_name) = true
    · obtain ⟨ih1, ih2, ih3⟩ :=
        ih { stats with shifts_applied := stats.shifts_applied + 1 }
      refine ⟨?_, ?_, ?_⟩
      · simp only [ShiftDetectionProcessor.validate_shifts, if_pos h]
        rw [List.filter_cons, if_pos h, ih1]
      · simp only [ShiftDetectionProcessor.validate_shifts, if_pos h]
        rw [ih2, List.countP_cons]
        simp [h]
        omega
      · simp only [ShiftDetectionProcessor.validate_shifts, if_pos h]
        rw [ih3, List.countP_cons]
        simp [h]
    · obtain ⟨ih1, ih2, ih3⟩ :=
        ih { stats with shifts_rejected := stats.shifts_rejected + 1 }
      have hb : shift_accepted p (max_shift_for config p.block_name) = false :=
        Bool.eq_false_iff.mpr h
      refine ⟨?_, ?_, ?_⟩
      · simp only [ShiftDetectionProcessor.validate_shifts, if_neg h]
        rw [List.filter_cons, if_neg (by simp [hb]), ih1]
      · simp only [ShiftDetectionProcessor.validate_shifts, if_neg h]
        rw [ih2, List.countP_cons]
        simp [hb]
      · simp only [ShiftDetectionProcessor.validate_shifts, if_neg h]
        rw [ih3, List.countP_cons]
        simp [hb]
        omega

/-- C6 (confirmed): a proposal is in the validated set exactly when its
magnitude is within its applicable maximum (per-block override if
present, else global) — so an over-limit proposal is never present — and
the applied/rejected counters increase by exactly the number of accepted
resp. rejected proposals. -/
theorem c6_shift_validation (config : ShiftDetectionConfig)
    (proposals : List ShiftProposal) (stats : ShiftStats) :
    (ShiftDetectionProcessor.validate_shifts config proposals stats).1 =
      proposals.filter
        (fun p => shift_accepted p (max_shift_for config p.block_name)) ∧
    (∀ p : ShiftProposal,
      p ∈ (ShiftDetectionProcessor.validate_shifts config proposals stats).1 ↔
        p ∈ proposals ∧
          shift_accepted p (max_shift_for config p.block_name) = true) ∧
    (ShiftDetectionProcessor.validate_shifts config proposals
        stats).2.shifts_applied =
      stats.shifts_applied + proposals.countP
        (fun p => shift_accepted p (max_shift_for config p.block_name)) ∧
    (ShiftDetectionProcessor.validate_shifts config proposals
        stats).2.shifts_rejected =
      stats.shifts_rejected + proposals.countP
        (fun p => !shift_accepted p (max_shift_for config p.block_name)) := by
  obtain ⟨h1, h2, h3⟩ := validate_shifts_filter_and_counts config proposals stats
  refine ⟨h1, ?_, h2, h3⟩
  intro p
  rw [h1]
  exact List.mem_filter

/-- C6 (supporting): the embedded acceptance test coincides with the
source's `sqrt(dx^2 + dy^2) <= max_shift` over the reals. -/
theorem shift_accepted_iff_sqrt (p : ShiftProposal) (max_shift : ℚ) :
    shift_accepted p max_shift = true ↔
      Real.sqrt ((p.dx : ℝ) ^ 2 + (p.dy : ℝ) ^ 2) ≤ (max_shift : ℝ) := by
  rw [Real.sqrt_le_iff, shift_accepted]
  simp only [Bool.and_eq_true, decide_eq_true_eq]
  constructor
  · rintro ⟨h1, h2⟩
    refine ⟨by exact_mod_cast h1, by exact_mod_cast h2⟩
  · rintro ⟨h1, h2⟩
    refine ⟨by exact_mod_cast h1, by exact_mod_cast h2⟩

/-- C9 (helper): applying one shift does not change the reset image of
the template. -/
theorem set_block_shift_map_reset (t : List FieldBlock) (p : ShiftProposal) :
    (ShiftDetectionProcessor.set_block_shift t p).map FieldBlock.reset_all_shifts =
      t.map FieldBlock.reset_all_shifts := by
  induction t with
  | nil => rfl
  | cons b rest ih =>
    by_cases h : b.name = p.block_name
    · simp [ShiftDetectionProcessor.set_block_shift, h, FieldBlock.reset_all_shifts]
    · simp [ShiftDetectionProcessor.set_block_shift, h, ih]

/-- C9 (helper): applying any number of shifts does not change the reset
image of the template. -/
theorem foldl_set_block_shift_map_reset (shifts : List ShiftProposal)
    (t : List FieldBlock) :
    (shifts.foldl ShiftDetectionProcessor.set_block_shift t).map
        FieldBlock.reset_all_shifts =
      t.map FieldBlock.reset_all_shifts := by
  induction shifts generalizing t with
  | nil => rfl
  | cons s rest ih => rw [List.foldl_cons, ih, set_block_shift_map_reset]

/-- C9 (confirmed, spec-modelled `reset_all_shifts`): after the shifted
detection pass, the template's final state is its fully reset image —
every field block carries the zero shift — and the baseline pass runs on
the template exactly as handed to it, so no applied shift persists. -/
theorem c9_shifts_never_persist {α : Type} (detect : List FieldBlock → α)
    (template : List FieldBlock) (shifts : List ShiftProposal) :
    (ShiftDetectionProcessor.run_detection_with_shifts detect template shifts).2 =
      template.map FieldBlock.reset_all_shifts ∧
    ((ShiftDetectionProcessor.run_detection_with_shifts detect template
        shifts).2).map FieldBlock.shifts =
      template.map (fun _ => ([0, 0] : List ℚ)) ∧
    ShiftDetectionProcessor.run_detection_without_shifts detect template =
      detect template := by
  refine ⟨?_, ?_, rfl⟩
  · exact foldl_set_block_shift_map_reset shifts template
  · show ((shifts.foldl ShiftDetectionProcessor.set_block_shift template).map
        FieldBlock.reset_all_shifts).map FieldBlock.shifts = _
    rw [foldl_set_block_shift_map_reset shifts template, List.map_map]
    rfl

/-- C10 (confirmed): with no active file every current-scope access
(`get_current_file_results`, and through it every field save/get) raises
the no-active-file `RuntimeError`; with an active file, getting a field
id that was never saved raises the field-not-found `KeyError`; and
`initialize_directory` clears all stored file results and resets the
current file scope to none. -/
theorem c10_repository_scope_errors :
    ((∀ r : DetectionRepository, r.current_file_results = none →
        DetectionRepository.get_current_file_results r =
          Except.error (RepoError.runtimeError ("No file currently being processed")) ∧
        (∀ (field_id : String) (result : BubbleFieldDetectionResult),
          DetectionRepository.save_bubble_field r field_id result =
            Except.error
              (RepoError.runtimeError ("No file currently being processed"))) ∧
        (∀ field_id : String,
          DetectionRepository.get_bubble_field r field_id =
            Except.error
              (RepoError.runtimeError ("No file currently being processed")))) ∧
      DetectionRepository.init.current_file_results = none) ∧
    (∀ (r : DetectionRepository) (current : FileDetectionResults)
        (field_id : String),
      r.current_file_results = some current →
      current.bubble_fields.find? (fun p => p.1 = field_id) = none →
      DetectionRepository.get_bubble_field r field_id =
        Except.error
          (RepoError.keyError ("Bubble field not found: " ++ field_id))) ∧
    (∀ (r : DetectionRepository) (directory_path : String),
      (DetectionRepository.initialize_directory r directory_path).file_results =
          [] ∧
        (DetectionRepository.initialize_directory r
          directory_path).current_file_results = none) := by
  refine ⟨⟨?_, rfl⟩, ?_, ?_⟩
  · intro r hr
    refine ⟨?_, ?_, ?_⟩
    · simp [DetectionRepository.get_current_file_results, hr]
    · intro field_id result
      simp [DetectionRepository.save_bubble_field,
        DetectionRepository.get_current_file_results, hr]
    · intro field_id
      simp [DetectionRepository.get_bubble_field,
        DetectionRepository.get_current_file_results, hr]
  · intro r current field_id hr hfind
    simp [DetectionRepository.get_bubble_field,
      DetectionRepository.get_current_file_results, hr, hfind]
  · intro r directory_path
    exact ⟨rfl, rfl⟩

/-- C10 (witness): concrete instances — the fresh repository errors on
current-file access, a repository with an active but empty file errors
on a field lookup, and re-initializing a populated repository for a new
directory empties it. -/
theorem c10_witness :
    DetectionRepository.get_current_file_results
        (⟨none, [], none⟩ : DetectionRepository) =
      Except.error (RepoError.runtimeError ("No file currently being processed")) ∧
    DetectionRepository.get_bubble_field
        (⟨some ⟨"a.png", []⟩, [], none⟩ : DetectionRepository) "q1" =
      Except.error (RepoError.keyError ("Bubble field not found: " ++ "q1")) ∧
    (DetectionRepository.initialize_directory
        (⟨some ⟨"a.png", [("q1", ⟨"q1", "q1", []⟩)]⟩,
          [("a.png", ⟨"a.png", []⟩)], some ("d0")⟩ : DetectionRepository)
        "d1").file_results = [] :=
  ⟨(c10_repository_scope_errors.1.1 _ rfl).1,
    c10_repository_scope_errors.2.1 _ ⟨"a.png", []⟩ "q1" rfl rfl,
    (c10_repository_scope_errors.2.2 _ ("d1")).1⟩

/-- C8 (confirmed): the Adaptive strategy returns the
confidence-and-weight weighted average of the sub-thresholds, the
maximum sub-confidence (a member of, and upper bound on, the
sub-confidences), the maximum sub-`max_jump`, and the disjunction of the
sub-fallback flags; when the total weighted confidence is `0` it returns
the default threshold with confidence `0` and `fallback_used = true`. -/
theorem c8_adaptive_combination (strategies : List ThresholdStrategyFn)
    (weights : List ℚ) (values : List ℚ) (config : ThresholdConfig)
    (_hlen : strategies.length = weights.length) :
    ((((strategies.map fun s => s values config).zip weights).map
          (fun p => p.1.confidence * p.2)).sum = 0 →
      AdaptiveThresholdStrategy.calculate_threshold strategies weights values
          config =
        { threshold_value := config.default_threshold
          confidence := 0
          max_jump := 0
          method_used := "adaptive_all_zero_confidence"
          fallback_used := true }) ∧
    ((((strategies.map fun s => s values config).zip weights).map
          (fun p => p.1.confidence * p.2)).sum ≠ 0 →
      (AdaptiveThresholdStrategy.calculate_threshold strategies weights values
            config).threshold_value =
        (((strategies.map fun s => s values config).zip weights).map
            (fun p => p.1.threshold_value * p.1.confidence * p.2)).sum /
          (((strategies.map fun s => s values config).zip weights).map
            (fun p => p.1.confidence * p.2)).sum ∧
      (AdaptiveThresholdStrategy.calculate_threshold strategies weights values
            config).confidence ∈
        (strategies.map fun s => s values config).map ThresholdResult.confidence ∧
      (∀ c ∈ (strategies.map fun s => s values config).map
          ThresholdResult.confidence,
        c ≤ (AdaptiveThresholdStrategy.calculate_threshold strategies weights
          values config).confidence) ∧
      (AdaptiveThresholdStrategy.calculate_threshold strategies weights values
            config).max_jump ∈
        (strategies.map fun s => s values config).map ThresholdResult.max_jump ∧
      (∀ j ∈ (strategies.map fun s => s values config).map
          ThresholdResult.max_jump,
        j ≤ (AdaptiveThresholdStrategy.calculate_threshold strategies weights
          values config).max_jump) ∧
      ((AdaptiveThresholdStrategy.calculate_threshold strategies weights values
            config).fallback_used = true ↔
        ∃ res ∈ strategies.map fun s => s values config,
          res.fallback_used = true)) := by
  constructor
  · intro h0
    simp only [AdaptiveThresholdStrategy.calculate_threshold]
    rw [if_pos h0]
  · intro h0
    have hres : (strategies.map fun s => s values config) ≠ [] := by
      intro hnil
      apply h0
      rw [hnil]
      simp
    have hcne : ((strategies.map fun s => s values config).map
        ThresholdResult.confidence) ≠ [] := by
      simpa using hres
    have hjne : ((strategies.map fun s => s values config).map
        ThresholdResult.max_jump) ≠ [] := by
      simpa using hres
    have hr : AdaptiveThresholdStrategy.calculate_threshold strategies weights
        values config =
      { threshold_value :=
          (((strategies.map fun s => s values config).zip weights).map
              (fun p => p.1.threshold_value * p.1.confidence * p.2)).sum /
            (((strategies.map fun s => s values config).zip weights).map
              (fun p => p.1.confidence * p.2)).sum
        confidence := pyMax ((strategies.map fun s => s values config).map
          ThresholdResult.confidence)
        max_jump := pyMax ((strategies.map fun s => s values config).map
          ThresholdResult.max_jump)
        method_used := "adaptive_weighted"
        fallback_used := (strategies.map fun s => s values config).any
          ThresholdResult.fallback_used } := by
      simp only [AdaptiveThresholdStrategy.calculate_threshold]
      rw [if_neg h0]
    rw [hr]
    refine ⟨rfl, pyMax_mem hcne, fun c hc => le_pyMax_of_mem hc,
      pyMax_mem hjne, fun j hj => le_pyMax_of_mem hj, ?_⟩
    simp [List.any_eq_true]

/-- C8 (witness): two constant sub-strategies with weights `2/5, 3/5`
(total weighted confidence `4/5`), instantiating the weighted-average
characterization. -/
theorem c8_witness :
    (([fun _ _ => ⟨100, 1/2, 20, "a", false⟩,
        fun _ _ => ⟨200, 1, 40, "b", true⟩] : List ThresholdStrategyFn).length =
      ([2/5, 3/5] : List ℚ).length) ∧
    ((((([fun _ _ => ⟨100, 1/2, 20, "a", false⟩,
        fun _ _ => ⟨200, 1, 40, "b", true⟩] : List ThresholdStrategyFn).map
          fun s => s [] ({} : ThresholdConfig)).zip ([2/5, 3/5] : List ℚ)).map
          (fun p => p.1.confidence * p.2)).sum ≠ 0) ∧
    (AdaptiveThresholdStrategy.calculate_threshold
        [fun _ _ => ⟨100, 1/2, 20, "a", false⟩,
          fun _ _ => ⟨200, 1, 40, "b", true⟩] [2/5, 3/5] []
        ({} : ThresholdConfig)).threshold_value =
      (((([fun _ _ => ⟨100, 1/2, 20, "a", false⟩,
          fun _ _ => ⟨200, 1, 40, "b", true⟩] : List ThresholdStrategyFn).map
            fun s => s [] ({} : ThresholdConfig)).zip ([2/5, 3/5] : List ℚ)).map
          (fun p => p.1.threshold_value * p.1.confidence * p.2)).sum /
        (((([fun _ _ => ⟨100, 1/2, 20, "a", false⟩,
          fun _ _ => ⟨200, 1, 40, "b", true⟩] : List ThresholdStrategyFn).map
            fun s => s [] ({} : ThresholdConfig)).zip ([2/5, 3/5] : List ℚ)).map
          (fun p => p.1.confidence * p.2)).sum := by
  have hne : ((((([fun _ _ => ⟨100, 1/2, 20, "a", false⟩,
      fun _ _ => ⟨200, 1, 40, "b", true⟩] : List ThresholdStrategyFn).map
        fun s => s [] ({} : ThresholdConfig)).zip ([2/5, 3/5] : List ℚ)).map
        (fun p => p.1.confidence * p.2)).sum ≠ 0) := by
    norm_num
  exact ⟨rfl, hne,
    ((c8_adaptive_combination
      [fun _ _ => ⟨100, 1/2, 20, "a", false⟩,
        fun _ _ => ⟨200, 1, 40, "b", true⟩] [2/5, 3/5] [] {} rfl).2 hne).1⟩

end OMRChecker
